import Mathlib

/-!
Shallow embedding of nexus6watcher's watch.py: the throttle decision inside
ModelMonitor.notify, the SMTP retry loop inside ModelMonitor.send_notification,
the probe handling of ModelMonitor.check and Monitor._worker, and the stats
persistence of Monitor._dump_stats / Monitor._load_stats. Times are naturals
counting whole seconds.
-/

/-- Python timedelta.seconds for a non-negative delta of whole seconds: the
sub-day seconds field, that is the total elapsed seconds modulo 86400 (whole
days land in the separate days field, which watch.py line 125 never reads). -/
def deltaSeconds (t0 now : Nat) : Nat := (now - t0) % 86400

/-- fire decision of ModelMonitor.notify (watch.py lines 112-129): a pair whose
recorded last notification time is None always fires; otherwise it fires iff
the subscriber interval is positive and delta.seconds reaches the interval. -/
def shouldFire (interval : Nat) (lastTime : Option Nat) (now : Nat) : Bool :=
  match lastTime with
  | none => true
  | some t0 => decide (0 < interval ∧ interval ≤ deltaSeconds t0 now)

/-- maximum delivery attempts, watch.py line 144. -/
def maxAttempts : Nat := 5

/-- retry loop of ModelMonitor.send_notification (lines 145-156) over a list of
attempt indices; `sink i` tells whether the SMTP attempt with index i succeeds.
Returns (attempts made, delivered, sleep durations executed in order): a failed
attempt with index a sleeps 5 * a seconds (line 154), a successful attempt
returns at once (line 151), and the bare except clause means no error escapes
the loop. -/
def attemptLoop (sink : Nat → Bool) : List Nat → Nat × Bool × List Nat
  | [] => (0, false, [])
  | a :: rest =>
    if sink a then (1, true, [])
    else
      let r := attemptLoop sink rest
      (r.1 + 1, r.2.1, 5 * a :: r.2.2)

/-- the loop `for attempt in range(max_attempts)` of line 145. -/
def sendEmailLoop (sink : Nat → Bool) : Nat × Bool × List Nat :=
  attemptLoop sink (List.range maxAttempts)

/-- ModelMonitor.send_notification (lines 131-156): line 134 stores the current
time as the pair's last notification time before the retry loop runs, so the
stored time does not depend on the outcome of any delivery attempt. -/
def send_notification (sink : Nat → Bool) (now : Nat) :
    Option Nat × (Nat × Bool × List Nat) :=
  (some now, sendEmailLoop sink)

/-- per-subscriber body of ModelMonitor.notify (lines 112-129): returns the new
last notification time for the pair, the fire decision, and the result of the
delivery loop ((0, false, []) recording that no attempt ran when suppressed). -/
def notifySub (sink : Nat → Bool) (interval : Nat) (lastTime : Option Nat)
    (now : Nat) : Option Nat × Bool × (Nat × Bool × List Nat) :=
  match lastTime with
  | none =>
    let s := send_notification sink now
    (s.1, true, s.2)
  | some t0 =>
    if 0 < interval ∧ interval ≤ deltaSeconds t0 now then
      let s := send_notification sink now
      (s.1, true, s.2)
    else (some t0, false, (0, false, []))

/-- Python dict subscript d[k] on a string-keyed dict represented as an
association list: none models a KeyError. -/
def pyGet {α : Type} (k : String) : List (String × α) → Option α
  | [] => none
  | p :: rest => if p.1 = k then some p.2 else pyGet k rest

/-- Subscriber.__init__ (lines 53-55): the notifications dict maps every model
of interest to None. -/
def initNotifications (models : List String) : List (String × Option Nat) :=
  models.map (fun m => (m, none))

/-- state of one ModelMonitor: the stats list view for its model and the
(interval, last notification time) of each subscriber of that model. -/
structure MonState where
  stats : List String
  subs : List (Nat × Option Nat)

/-- ModelMonitor.notify (lines 105-129): appends the current timestamp string
to the model's stats list (line 110) and runs the per-subscriber decision for
every subscriber. -/
def notify (sink : Nat → Bool) (ts : String) (now : Nat) (st : MonState) :
    MonState :=
  MonState.mk (st.stats ++ [ts])
    (st.subs.map (fun s => (s.1, (notifySub sink s.1 s.2 now).1)))

/-- an HTTP response as ModelMonitor.check reads it: status code and body. -/
structure HttpResponse where
  statusCode : Nat
  text : List Char

/-- the out-of-stock marker searched for at line 91. -/
def outOfStockPat : List Char := "We are out of inventory".data

/-- substring search modelling re.search with a literal pattern (line 91). -/
def occursIn (pat : List Char) : List Char → Bool
  | [] => pat.isEmpty
  | c :: rest => pat.isPrefixOf (c :: rest) || occursIn pat rest

/-- ModelMonitor.check (lines 79-103), abstracted over the probe outcome:
none models requests.get raising (network error or timeout), which the
try/except of lines 84-103 catches and logs. The result tells whether
notify() runs in this iteration. -/
def check (testMode : Bool) (probe : Option HttpResponse) : Bool :=
  if testMode then true
  else
    match probe with
    | none => false
    | some r =>
      if r.statusCode ≠ 200 then false
      else if occursIn outOfStockPat r.text then false
      else if r.text.length < 2048 then false
      else true

/-- one iteration of the Monitor._worker loop (lines 215-217): run check, and
when it decides to notify, apply the notify effects; otherwise the state is
untouched and the loop simply proceeds to its next iteration. -/
def workerIter (testMode : Bool) (sink : Nat → Bool) (probe : Option HttpResponse)
    (ts : String) (now : Nat) (st : MonState) : MonState :=
  if check testMode probe then notify sink ts now st else st

/-- C1: the fire-check compares timedelta.seconds, not the total elapsed time.
With interval 10 and lastFired t0 = 0, a check at now = 86400 — exactly one day
later, far past t0 + 10 — is suppressed, contradicting the claim that every
now ≥ t0 + I fires; within the first day the claimed behaviour does hold
(false at t0 + 9, true at t0 + 10). -/
theorem C1_day_wrap_suppresses :
    shouldFire 10 (some 0) 86400 = false ∧
    shouldFire 10 (some 0) 9 = false ∧
    shouldFire 10 (some 0) 10 = true ∧
    0 + 10 ≤ 86400 := by decide

/-- C2: a pair with no recorded prior notification (Subscriber.__init__ maps
every model of interest to None) always yields fire decision = true on the
first available transition, for every interval, interval 0 included, and
issues the one send_notification call. -/
theorem C2_first_fire (sink : Nat → Bool) (interval now : Nat)
    (models : List String) (m : String) (hm : m ∈ models) :
    pyGet m (initNotifications models) = some none ∧
    shouldFire interval none now = true ∧
    notifySub sink interval none now = (some now, true, sendEmailLoop sink) := by
  refine ⟨?_, rfl, rfl⟩
  induction models with
  | nil => cases hm
  | cons a t ih =>
    rcases List.mem_cons.mp hm with h | h
    · subst h
      simp [pyGet, initNotifications]
    · by_cases ha : a = m
      · subst ha
        simp [pyGet, initNotifications]
      · simpa [pyGet, initNotifications, ha] using ih h

/-- witness for C2 at a concrete input. -/
theorem C2_first_fire_witness :
    pyGet "white32" (initNotifications ["white32"]) = some none ∧
    shouldFire 0 none 7 = true ∧
    notifySub (fun _ => true) 0 none 7 =
      (some 7, true, sendEmailLoop (fun _ => true)) :=
  C2_first_fire (fun _ => true) 0 7 ["white32"] "white32" (by simp)

/-- C3: with interval 0 and a recorded prior notification, the fire-check is
false at every later time (interval 0 means notify exactly once), the stored
time is untouched and no delivery attempt runs. -/
theorem C3_zero_interval (sink : Nat → Bool) (t0 now : Nat) :
    shouldFire 0 (some t0) now = false ∧
    notifySub sink 0 (some t0) now = (some t0, false, (0, false, [])) := by
  constructor
  · simp [shouldFire]
  · simp [notifySub]

/-- C4: under a sink that fails every attempt, the retry loop makes exactly
maxAttempts = 5 attempts, never raises (it returns a value), and sleeps
5 * a seconds after the failed attempt with index a, a counted from 0 at the
first attempt; under a sink whose first success is attempt k, it stops at once
after k + 1 attempts, with the sleeps of the k failed attempts before it. -/
theorem C4_retry_bound (sink : Nat → Bool) :
    ((∀ i, sink i = false) →
      sendEmailLoop sink = (5, false, [0, 5, 10, 15, 20])) ∧
    (∀ k, k < 5 → (∀ i, i < k → sink i = false) → sink k = true →
      sendEmailLoop sink = (k + 1, true, (List.range k).map (fun a => 5 * a))) := by
  have hr : List.range 5 = [0, 1, 2, 3, 4] := by decide
  constructor
  · intro h
    simp [sendEmailLoop, maxAttempts, hr, attemptLoop, h 0, h 1, h 2, h 3, h 4]
  · intro k hk hlt htrue
    interval_cases k
    · simp [sendEmailLoop, maxAttempts, hr, attemptLoop, htrue]
    · simp [sendEmailLoop, maxAttempts, hr, attemptLoop, htrue,
        hlt 0 (by omega), List.range_succ]
    · simp [sendEmailLoop, maxAttempts, hr, attemptLoop, htrue,
        hlt 0 (by omega), hlt 1 (by omega), List.range_succ]
    · simp [sendEmailLoop, maxAttempts, hr, attemptLoop, htrue,
        hlt 0 (by omega), hlt 1 (by omega), hlt 2 (by omega), List.range_succ]
    · simp [sendEmailLoop, maxAttempts, hr, attemptLoop, htrue,
        hlt 0 (by omega), hlt 1 (by omega), hlt 2 (by omega), hlt 3 (by omega),
        List.range_succ]

/-- witness for C4: the always-failing sink exhausts the 5 attempts with sleeps
0, 5, 10, 15, 20; a sink succeeding at the first attempt stops at one attempt
with no sleep. -/
theorem C4_retry_bound_witness :
    sendEmailLoop (fun _ => false) = (5, false, [0, 5, 10, 15, 20]) ∧
    sendEmailLoop (fun _ => true) = (1, true, []) :=
  ⟨(C4_retry_bound (fun _ => false)).1 (fun _ => rfl),
   (C4_retry_bound (fun _ => true)).2 0 (by decide) (fun i h => absurd h (by omega))
     rfl⟩

/-- C5: the stored last notification time changes iff the fire decision is
true; when it fires the time is set to now independently of the delivery
sink's behaviour (line 134 runs before any attempt), and when it suppresses
the stored time is unchanged and no delivery attempt runs. -/
theorem C5_update_iff_fire (sink sink2 : Nat → Bool) (interval : Nat)
    (lastTime : Option Nat) (now : Nat) :
    ((notifySub sink interval lastTime now).2.1 = shouldFire interval lastTime now) ∧
    (shouldFire interval lastTime now = true →
      (notifySub sink interval lastTime now).1 = some now) ∧
    (shouldFire interval lastTime now = false →
      (notifySub sink interval lastTime now).1 = lastTime ∧
      (notifySub sink interval lastTime now).2.2 = (0, false, [])) ∧
    (notifySub sink interval lastTime now).1 = (notifySub sink2 interval lastTime now).1 := by
  cases lastTime with
  | none => simp [notifySub, shouldFire, send_notification]
  | some t0 =>
    by_cases h : 0 < interval ∧ interval ≤ deltaSeconds t0 now
    · simp [notifySub, shouldFire, send_notification, h]
    · simp [notifySub, shouldFire, send_notification, h]

/-- witness for C5 at concrete inputs: a suppressed check leaves the stored
time and delivery state unchanged, and a firing check stores now for two
sinks of opposite behaviour. -/
theorem C5_update_iff_fire_witness :
    ((notifySub (fun _ => true) 10 (some 0) 4).1 = some 0 ∧
      (notifySub (fun _ => true) 10 (some 0) 4).2.2 = (0, false, [])) ∧
    (notifySub (fun _ => true) 10 (some 0) 15).1 = some 15 ∧
    (notifySub (fun _ => true) 10 (some 0) 15).1 =
      (notifySub (fun _ => false) 10 (some 0) 15).1 :=
  ⟨(C5_update_iff_fire (fun _ => true) (fun _ => false) 10 (some 0) 4).2.2.1
      (by decide),
   (C5_update_iff_fire (fun _ => true) (fun _ => false) 10 (some 0) 15).2.1
      (by decide),
   (C5_update_iff_fire (fun _ => true) (fun _ => false) 10 (some 0) 15).2.2.2⟩

/-- C8: a probe error (requests.get raising, modelled as probe = none) makes
check return without notifying, so the worker iteration leaves the state
untouched — no event appended, no notification state changed, no delivery —
and the loop proceeds; an unexpected status code is likewise treated as an
indeterminate result with no effect. -/
theorem C8_probe_error_no_effect (sink : Nat → Bool) (ts : String) (now : Nat)
    (st : MonState) (r : HttpResponse) (hr : r.statusCode ≠ 200) :
    check false none = false ∧
    workerIter false sink none ts now st = st ∧
    check false (some r) = false ∧
    workerIter false sink (some r) ts now st = st := by
  refine ⟨rfl, rfl, ?_, ?_⟩
  · simp [check, hr]
  · simp [workerIter, check, hr]

/-- witness for C8: a 404 response and a raised probe both leave a concrete
state unchanged. -/
theorem C8_probe_error_no_effect_witness :
    check false none = false ∧
    workerIter false (fun _ => true) none "ts" 3 (MonState.mk [] [(0, none)]) =
      MonState.mk [] [(0, none)] ∧
    check false (some (HttpResponse.mk 404 [])) = false ∧
    workerIter false (fun _ => true) (some (HttpResponse.mk 404 [])) "ts" 3
      (MonState.mk [] [(0, none)]) = MonState.mk [] [(0, none)] :=
  C8_probe_error_no_effect (fun _ => true) "ts" 3 (MonState.mk [] [(0, none)])
    (HttpResponse.mk 404 []) (by decide)

/-! ## Stats persistence: the JSON fragment json.dumps / json.loads act on

The checkpoint is json.dumps of a dict mapping model names to lists of
timestamp strings (Python 2.7 defaults: item separator ", ", key separator
": "). The parser below is a recursive-descent reader of exactly that output
shape; fuel bounds the two list-shaped recursions. -/

/-- the left brace character, by code point. -/
def lbrace : Char := Char.ofNat 123

/-- the right brace character, by code point. -/
def rbrace : Char := Char.ofNat 125

/-- a snapshot at character level: keys and timestamps as char lists. -/
abbrev StatsMapC := List (List Char × List (List Char))

/-- a snapshot as the program holds it: model name to timestamp strings. -/
abbrev StatsMap := List (String × List String)

/-- characters that json.dumps copies verbatim (no escaping): printable ASCII
other than the double quote and the backslash. -/
def jsonPlainChar (c : Char) : Bool :=
  decide (c ≠ '"' ∧ c ≠ '\\' ∧ 32 ≤ c.toNat ∧ c.toNat ≤ 126)

/-- all characters of a string are plain. -/
def plainS (s : List Char) : Bool := s.all jsonPlainChar

/-- all strings of an array are plain. -/
def plainArr (v : List (List Char)) : Bool := v.all plainS

/-- a key/value pair is plain. -/
def plainPair (p : List Char × List (List Char)) : Bool :=
  plainS p.1 && plainArr p.2

/-- a whole snapshot is plain. -/
def plainStatsC (m : StatsMapC) : Bool := m.all plainPair

/-- a JSON string literal for a plain string. -/
def renderString (s : List Char) : List Char := '"' :: (s ++ ['"'])

/-- the rest of a rendered array after its first element. -/
def renderArrTail : List (List Char) → List Char
  | [] => [']']
  | x :: rest => ',' :: ' ' :: (renderString x ++ renderArrTail rest)

/-- a JSON array of string literals. -/
def renderArr : List (List Char) → List Char
  | [] => ['[', ']']
  | x :: rest => '[' :: (renderString x ++ renderArrTail rest)

/-- one rendered key/value pair. -/
def renderPairBody (p : List Char × List (List Char)) : List Char :=
  renderString p.1 ++ ':' :: ' ' :: renderArr p.2

/-- the rest of a rendered object after its first pair. -/
def renderObjTail : StatsMapC → List Char
  | [] => [rbrace]
  | p :: rest => ',' :: ' ' :: (renderPairBody p ++ renderObjTail rest)

/-- json.dumps output for the snapshot. -/
def renderStatsC : StatsMapC → List Char
  | [] => [lbrace, rbrace]
  | p :: rest => lbrace :: (renderPairBody p ++ renderObjTail rest)

/-- read a string body up to the closing quote. -/
def parseStringBody : List Char → Option (List Char × List Char)
  | [] => none
  | c :: cs =>
    if c = '"' then some ([], cs)
    else
      match parseStringBody cs with
      | some p => some (c :: p.1, p.2)
      | none => none

/-- read a quoted string literal. -/
def parseQuoted : List Char → Option (List Char × List Char)
  | [] => none
  | c :: cs => if c = '"' then parseStringBody cs else none

/-- read the elements of a non-empty array, after the opening bracket. -/
def parseArrItems : Nat → List Char → Option (List (List Char) × List Char)
  | 0, _ => none
  | fuel + 1, cs =>
    match parseQuoted cs with
    | none => none
    | some sr =>
      match sr.2 with
      | [] => none
      | c :: rest =>
        if c = ']' then some ([sr.1], rest)
        else if c = ',' then
          match rest with
          | [] => none
          | d :: rest2 =>
            if d = ' ' then
              match parseArrItems fuel rest2 with
              | some p => some (sr.1 :: p.1, p.2)
              | none => none
            else none
        else none

/-- read a JSON array of string literals. -/
def parseArr (cs : List Char) : Option (List (List Char) × List Char) :=
  match cs with
  | [] => none
  | c :: rest =>
    if c = '[' then
      match rest with
      | [] => none
      | d :: _ =>
        if d = ']' then some ([], rest.tail)
        else parseArrItems rest.length rest
    else none

/-- read the pairs of a non-empty object, after the opening brace. -/
def parseObjItems : Nat → List Char → Option (StatsMapC × List Char)
  | 0, _ => none
  | fuel + 1, cs =>
    match parseQuoted cs with
    | none => none
    | some kr =>
      match kr.2 with
      | [] => none
      | c :: r1 =>
        if c = ':' then
          match r1 with
          | [] => none
          | d :: r2 =>
            if d = ' ' then
              match parseArr r2 with
              | none => none
              | some vr =>
                match vr.2 with
                | [] => none
                | e :: r3 =>
                  if e = rbrace then some ([(kr.1, vr.1)], r3)
                  else if e = ',' then
                    match r3 with
                    | [] => none
                    | f :: r4 =>
                      if f = ' ' then
                        match parseObjItems fuel r4 with
                        | some mr => some ((kr.1, vr.1) :: mr.1, mr.2)
                        | none => none
                      else none
                  else none
            else none
        else none

/-- json.loads for the snapshot shape: accepts exactly a full rendered
snapshot, nothing trailing. -/
def parseStatsC (cs : List Char) : Option StatsMapC :=
  match cs with
  | [] => none
  | c :: rest =>
    if c = lbrace then
      match rest with
      | [] => none
      | d :: rest2 =>
        if d = rbrace then (if rest2.isEmpty then some [] else none)
        else
          match parseObjItems rest.length rest with
          | some mr => if mr.2.isEmpty then some mr.1 else none
          | none => none
    else none

/-- view a snapshot at character level. -/
def toC (S : StatsMap) : StatsMapC :=
  S.map (fun p => (p.1.data, p.2.map String.data))

/-- pack a character-level snapshot back into strings. -/
def ofC (M : StatsMapC) : StatsMap :=
  M.map (fun p => (String.mk p.1, p.2.map String.mk))

/-- every character of every name and timestamp of the snapshot is plain. -/
def statsPlain (S : StatsMap) : Bool := plainStatsC (toC S)

/-- json.dumps(self.model_stats) as written by _dump_stats (line 200). -/
def renderStats (S : StatsMap) : List Char := renderStatsC (toC S)

/-- json.loads(stats_file.read()) as read by _load_stats (line 207). -/
def parseStats (cs : List Char) : Option StatsMap := (parseStatsC cs).map ofC

/-- dict.fromkeys(names, v) viewed at snapshot-value level: every key maps to
the value v (line 209 with v = []; the object-identity aspect of that same
line — a single shared list object — is modelled separately further below). -/
def fromkeys (names : List String) (v : List String) : StatsMap :=
  names.map (fun n => (n, v))

/-- Monitor._load_stats (lines 202-209), file system abstracted: fileExists
tells os.path.exists, fileText is the file content when it exists. Returns
none when CONF has no stats_file entry — then self.model_stats is never
assigned at all — and otherwise some of the json.loads result (itself none
when the text does not parse) or of the fromkeys initialisation. -/
def loadStats (statsFile : Option String) (fileExists : Bool)
    (fileText : List Char) (modelNames : List String) :
    Option (Option StatsMap) :=
  match statsFile with
  | none => none
  | some _ =>
    if fileExists then some (parseStats fileText)
    else some (some (fromkeys modelNames []))

/-- Monitor._dump_stats (lines 197-200): when a stats file is configured the
full snapshot is serialized with json.dumps and written wholesale, overwriting
the previous checkpoint; otherwise nothing is written. -/
def dumpStats (statsFile : Option String) (S : StatsMap) : Option (List Char) :=
  match statsFile with
  | none => none
  | some _ => some (renderStats S)

/-- the subscript self.model_stats[model.name] of Monitor._worker (line 213):
none models the KeyError that kills that worker thread at startup. -/
def workerLookup (m : StatsMap) (name : String) : Option (List String) :=
  pyGet name m

/-- helper: a plain character is not the double quote. -/
theorem jsonPlainChar_ne_quote {c : Char} (h : jsonPlainChar c = true) :
    c ≠ '"' := by
  simp [jsonPlainChar] at h
  exact h.1

/-- reading back a plain string body stops exactly at the closing quote. -/
theorem parseStringBody_render (s rest : List Char) (h : plainS s = true) :
    parseStringBody (s ++ '"' :: rest) = some (s, rest) := by
  induction s with
  | nil => simp [parseStringBody]
  | cons c cs ih =>
    simp only [plainS, List.all_cons, Bool.and_eq_true] at h
    have hc : c ≠ '"' := jsonPlainChar_ne_quote h.1
    simp [parseStringBody, hc, ih h.2]

/-- reading back a rendered string literal returns the string and the rest. -/
theorem parseQuoted_render (s rest : List Char) (h : plainS s = true) :
    parseQuoted (renderString s ++ rest) = some (s, rest) := by
  simp [renderString, parseQuoted, List.append_assoc, parseStringBody_render s rest h]

/-- the rendered tail of an array is longer than the number of elements left. -/
theorem renderArrTail_length (xs : List (List Char)) :
    xs.length + 1 ≤ (renderArrTail xs).length := by
  induction xs with
  | nil => simp [renderArrTail]
  | cons x t ih =>
    simp only [renderArrTail, List.length_cons, List.length_append]
    omega

/-- reading back a rendered non-empty array body with enough fuel. -/
theorem parseArrItems_render (xs : List (List Char)) (x rest : List Char)
    (fuel : Nat) (hfuel : xs.length < fuel) (hx : plainS x = true)
    (hxs : plainArr xs = true) :
    parseArrItems fuel (renderString x ++ (renderArrTail xs ++ rest)) =
      some (x :: xs, rest) := by
  induction xs generalizing x fuel rest with
  | nil =>
    cases fuel with
    | zero => omega
    | succ f =>
      simp [parseArrItems, renderArrTail, parseQuoted_render x (']' :: rest) hx]
  | cons y ys ih =>
    cases fuel with
    | zero => omega
    | succ f =>
      simp only [plainArr, List.all_cons, Bool.and_eq_true] at hxs
      have hy : plainS y = true := hxs.1
      have hys : plainArr ys = true := hxs.2
      have hrw : renderArrTail (y :: ys) ++ rest =
          ',' :: ' ' :: (renderString y ++ (renderArrTail ys ++ rest)) := by
        simp [renderArrTail, List.append_assoc]
      rw [hrw]
      have hq := parseQuoted_render x
        (',' :: ' ' :: (renderString y ++ (renderArrTail ys ++ rest))) hx
      simp only [List.length_cons] at hfuel
      simp [parseArrItems, hq, ih y rest f (by omega) hy hys]

/-- reading back a rendered array returns the elements and the rest. -/
theorem parseArr_render (xs : List (List Char)) (rest : List Char)
    (h : plainArr xs = true) :
    parseArr (renderArr xs ++ rest) = some (xs, rest) := by
  cases xs with
  | nil => simp [renderArr, parseArr]
  | cons x t =>
    simp only [plainArr, List.all_cons, Bool.and_eq_true] at h
    have hrw : renderArr (x :: t) ++ rest =
        '[' :: ('"' :: ((x ++ ['"']) ++ (renderArrTail t ++ rest))) := by
      simp [renderArr, renderString, List.append_assoc]
    have hlen : t.length <
        ('"' :: ((x ++ ['"']) ++ (renderArrTail t ++ rest))).length := by
      have := renderArrTail_length t
      simp only [List.length_cons, List.length_append]
      omega
    have hmain := parseArrItems_render t x rest
      (('"' :: ((x ++ ['"']) ++ (renderArrTail t ++ rest))).length) hlen h.1 h.2
    have harg : renderString x ++ (renderArrTail t ++ rest) =
        '"' :: ((x ++ ['"']) ++ (renderArrTail t ++ rest)) := by
      simp [renderString, List.append_assoc]
    rw [harg] at hmain
    rw [hrw]
    simp only [parseArr, reduceIte]
    exact hmain

/-- the rendered tail of an object is longer than the number of pairs left. -/
theorem renderObjTail_length (m : StatsMapC) :
    m.length + 1 ≤ (renderObjTail m).length := by
  induction m with
  | nil => simp [renderObjTail]
  | cons p t ih =>
    simp only [renderObjTail, List.length_cons, List.length_append]
    omega

/-- reading back a rendered non-empty object body with enough fuel. -/
theorem parseObjItems_render (m : StatsMapC) (p : List Char × List (List Char))
    (rest : List Char) (fuel : Nat) (hfuel : m.length < fuel)
    (hp : plainPair p = true) (hm : plainStatsC m = true) :
    parseObjItems fuel (renderPairBody p ++ (renderObjTail m ++ rest)) =
      some (p :: m, rest) := by
  induction m generalizing p fuel rest with
  | nil =>
    cases fuel with
    | zero => omega
    | succ f =>
      obtain ⟨k, v⟩ := p
      simp only [plainPair, Bool.and_eq_true] at hp
      have hrw : renderPairBody (k, v) ++ (renderObjTail [] ++ rest) =
          renderString k ++ (':' :: ' ' :: (renderArr v ++ (rbrace :: rest))) := by
        simp [renderPairBody, renderObjTail, List.append_assoc]
      rw [hrw]
      have hq := parseQuoted_render k
        (':' :: ' ' :: (renderArr v ++ (rbrace :: rest))) hp.1
      have ha := parseArr_render v (rbrace :: rest) hp.2
      simp [parseObjItems, hq, ha]
  | cons q ms ih =>
    cases fuel with
    | zero => omega
    | succ f =>
      obtain ⟨k, v⟩ := p
      simp only [plainPair, Bool.and_eq_true] at hp
      simp only [plainStatsC, List.all_cons, Bool.and_eq_true] at hm
      have hrw : renderPairBody (k, v) ++ (renderObjTail (q :: ms) ++ rest) =
          renderString k ++ (':' :: ' ' :: (renderArr v ++
            (',' :: ' ' :: (renderPairBody q ++ (renderObjTail ms ++ rest))))) := by
        simp [renderPairBody, renderObjTail, List.append_assoc]
      rw [hrw]
      have hq := parseQuoted_render k
        (':' :: ' ' :: (renderArr v ++
          (',' :: ' ' :: (renderPairBody q ++ (renderObjTail ms ++ rest))))) hp.1
      have ha := parseArr_render v
        (',' :: ' ' :: (renderPairBody q ++ (renderObjTail ms ++ rest))) hp.2
      have hih := ih q rest f (by simp only [List.length_cons] at hfuel; omega)
        hm.1 hm.2
      simp [parseObjItems, hq, ha, hih]
      decide

/-- reading back a whole rendered snapshot. -/
theorem parseStatsC_render (M : StatsMapC) (h : plainStatsC M = true) :
    parseStatsC (renderStatsC M) = some M := by
  cases M with
  | nil => simp [renderStatsC, parseStatsC]
  | cons p m =>
    simp only [plainStatsC, List.all_cons, Bool.and_eq_true] at h
    obtain ⟨k, v⟩ := p
    have hrw : renderStatsC ((k, v) :: m) =
        lbrace :: ('"' :: ((k ++ ['"']) ++
          (':' :: ' ' :: (renderArr v ++ renderObjTail m)))) := by
      simp [renderStatsC, renderPairBody, renderString, List.append_assoc]
    have harg : renderPairBody (k, v) ++ (renderObjTail m ++ []) =
        '"' :: ((k ++ ['"']) ++ (':' :: ' ' :: (renderArr v ++ renderObjTail m))) := by
      simp [renderPairBody, renderString, List.append_assoc]
    have hfuel : m.length <
        ('"' :: ((k ++ ['"']) ++
          (':' :: ' ' :: (renderArr v ++ renderObjTail m)))).length := by
      have := renderObjTail_length m
      simp only [List.length_cons, List.length_append]
      omega
    have hmain := parseObjItems_render m (k, v) [] _ hfuel h.1 h.2
    rw [harg] at hmain
    rw [hrw]
    simp only [parseStatsC, reduceIte]
    rw [hmain]
    simp
    decide

/-- repacking the characters of strings is the identity. -/
theorem mk_data_map (v : List String) :
    v.map (fun s => String.mk s.data) = v := by
  induction v with
  | nil => rfl
  | cons a t ih => simp [ih]

/-- the two snapshot views are inverse to each other. -/
theorem ofC_toC (S : StatsMap) : ofC (toC S) = S := by
  induction S with
  | nil => rfl
  | cons p t ih =>
    obtain ⟨k, v⟩ := p
    simp only [ofC, toC, List.map_cons] at ih ⊢
    refine congrArg₂ (· :: ·) ?_ ih
    simp only [List.map_map, Function.comp_def]
    rw [mk_data_map v]

/-- C7: checkpoint/load round-trip. For every snapshot S whose names and
timestamps are plain printable strings (the program's names like white32 and
timestamps like 2014-11-19 12:00:00 are), _dump_stats writes json.dumps(S) and
_load_stats on that very content returns S unchanged: load(checkpoint(S)) = S,
whatever the configured path and monitored model set. -/
theorem C7_roundtrip (path : String) (names : List String) (S : StatsMap)
    (h : statsPlain S = true) :
    dumpStats (some path) S = some (renderStats S) ∧
    loadStats (some path) true (renderStats S) names = some (some S) := by
  refine ⟨rfl, ?_⟩
  simp [loadStats, parseStats, renderStats, parseStatsC_render _ h, ofC_toC]

/-- witness for C7 on a concrete two-model snapshot. -/
theorem C7_roundtrip_witness :
    dumpStats (some "nexus_stats.json")
        [("white32", ["2014-11-19 12:00:00"]), ("blue64", [])] =
      some (renderStats [("white32", ["2014-11-19 12:00:00"]), ("blue64", [])]) ∧
    loadStats (some "nexus_stats.json") true
        (renderStats [("white32", ["2014-11-19 12:00:00"]), ("blue64", [])])
        ["white32", "blue64"] =
      some (some [("white32", ["2014-11-19 12:00:00"]), ("blue64", [])]) :=
  C7_roundtrip "nexus_stats.json" ["white32", "blue64"]
    [("white32", ["2014-11-19 12:00:00"]), ("blue64", [])] (by decide)

/-- C6 counterexample: a stats file is configured and the checkpoint file
exists but does not mention the monitored item white32 (here it is the empty
object); _load_stats keeps the parsed dict as-is, so white32 has no entry and
the worker's stats subscript at line 213 raises KeyError (modelled none): the
item's sequence is not initialized empty and that item's poller never runs. -/
theorem C6_new_item_keyerror :
    loadStats (some "nexus_stats.json") true (renderStats []) ["white32"] =
      some (some []) ∧
    workerLookup [] "white32" = none := by
  constructor
  · decide
  · rfl

/-- C6 amended: when a stats file is configured and the checkpoint file
exists, its json.loads result is taken as-is, independent of the monitored
item set, so an item absent from it gets no entry; only when the file does not
exist is every item's sequence initialized empty (and then every item's worker
subscript succeeds with an empty list); when no stats file is configured,
model_stats is never assigned at all. -/
theorem C6_load_initialises (path : String) (text : List Char) (b : Bool)
    (names names2 : List String) (n : String) (hn : n ∈ names) :
    loadStats (some path) true text names = loadStats (some path) true text names2 ∧
    loadStats (some path) true text names = some (parseStats text) ∧
    loadStats (some path) false text names = some (some (fromkeys names [])) ∧
    workerLookup (fromkeys names []) n = some [] ∧
    loadStats none b text names = none := by
  refine ⟨rfl, rfl, rfl, ?_, rfl⟩
  induction names with
  | nil => cases hn
  | cons a t ih =>
    rcases List.mem_cons.mp hn with h | h
    · subst h
      simp [workerLookup, pyGet, fromkeys]
    · by_cases ha : a = n
      · subst ha
        simp [workerLookup, pyGet, fromkeys]
      · simpa [workerLookup, pyGet, fromkeys, ha] using ih h

/-- witness for C6 amended at a concrete input. -/
theorem C6_load_initialises_witness :
    loadStats (some "s.json") true [lbrace, rbrace] ["white32"] =
      loadStats (some "s.json") true [lbrace, rbrace] [] ∧
    loadStats (some "s.json") true [lbrace, rbrace] ["white32"] =
      some (parseStats [lbrace, rbrace]) ∧
    loadStats (some "s.json") false [lbrace, rbrace] ["white32"] =
      some (some (fromkeys ["white32"] [])) ∧
    workerLookup (fromkeys ["white32"] []) "white32" = some [] ∧
    loadStats none true [lbrace, rbrace] ["white32"] = none :=
  C6_load_initialises "s.json" [lbrace, rbrace] true ["white32"] []
    "white32" (by simp)

/-! ## The _monitor main loop: periodic checkpoint and termination -/

/-- how the _monitor main loop (lines 229-238) terminates. -/
inductive TermCause where
  | exn
  | keyboardInterrupt
  | sigterm

/-- the handler of lines 236-238 — one more _dump_stats, then re-raise — runs
only for exceptions deriving from class Exception, per the `except Exception`
clause; in Python 2.7 KeyboardInterrupt derives from BaseException only, so an
external interrupt signal skips the handler, and the default SIGTERM
disposition terminates the process with no Python exception at all. -/
def finalDump : TermCause → Bool
  | TermCause.exn => true
  | TermCause.keyboardInterrupt => false
  | TermCause.sigterm => false

/-- the periodic part of _monitor (lines 230-235): iteration i, counting from
1, sleeps one second and then runs _dump_stats iff i % 5 == 0. -/
def dumpAt (i : Nat) : Bool := i % 5 == 0

/-- the times, in whole seconds of main-loop sleep, at which _dump_stats runs
within the first n iterations. -/
def monitorDumpTimes (n : Nat) : List Nat :=
  ((List.range n).map (fun j => j + 1)).filter (fun i => dumpAt i)

/-- C9 amended: the main loop checkpoints the event log exactly at the times
that are positive multiples of 5 seconds, on its own 1-second timer
independent of the poll cycles, and performs one final best-effort checkpoint
only when it terminates with an ordinary Exception (which it then re-raises);
an external-signal shutdown runs no final checkpoint. -/
theorem C9_periodic_dump_and_final (n i : Nat) :
    (i ∈ monitorDumpTimes n ↔ 1 ≤ i ∧ i ≤ n ∧ i % 5 = 0) ∧
    finalDump TermCause.exn = true ∧
    finalDump TermCause.keyboardInterrupt = false := by
  refine ⟨?_, rfl, rfl⟩
  simp only [monitorDumpTimes, dumpAt, List.mem_filter, List.mem_map,
    List.mem_range, beq_iff_eq]
  constructor
  · rintro ⟨⟨j, hj, rfl⟩, h5⟩
    exact ⟨by omega, by omega, h5⟩
  · rintro ⟨h1, h2, h5⟩
    exact ⟨⟨i - 1, by omega, by omega⟩, h5⟩

/-- C9 counterexample to the claim as stated: on a graceful shutdown by
external signal — KeyboardInterrupt from SIGINT, or SIGTERM — the handler of
lines 236-238 does not run, so no final best-effort checkpoint is performed
before exiting; only an ordinary Exception triggers it. -/
theorem C9_no_final_dump_on_signal :
    finalDump TermCause.keyboardInterrupt = false ∧
    finalDump TermCause.sigterm = false ∧
    finalDump TermCause.exn = true :=
  ⟨rfl, rfl, rfl⟩

/-! ## Object identity of the stats lists (line 209) -/

/-- heap of Python list objects: cell r holds the list it currently contains. -/
abbrev Heap := List (List String)

/-- overwrite heap cell r. -/
def heapWrite : Heap → Nat → List String → Heap
  | [], _, _ => []
  | _ :: rest, 0, v => v :: rest
  | c :: rest, n + 1, v => c :: heapWrite rest n v

/-- read heap cell r. -/
def heapRead (h : Heap) (r : Nat) : List String := h.getD r []

/-- object-identity model of dict.fromkeys(map(..., self.models), []) at line
209: Python evaluates the default value [] once, so a single fresh empty list
object (cell 0 of a fresh heap) is the value every key maps to. -/
def fromkeysShared (names : List String) : List (String × Nat) × Heap :=
  (names.map (fun n => (n, 0)), [[]])

/-- self.stats.append(timestamp) at line 110, performed through the alias
self.model_stats[model.name] that _worker fetched at line 213. -/
def recordEvent (refs : List (String × Nat)) (h : Heap) (name ts : String) :
    Heap :=
  match pyGet name refs with
  | some r => heapWrite h r (heapRead h r ++ [ts])
  | none => h

/-- a sequence of availability events, each recorded for some item. -/
def runEvents (refs : List (String × Nat)) (h : Heap)
    (ops : List (String × String)) : Heap :=
  ops.foldl (fun acc op => recordEvent refs acc op.1 op.2) h

/-- the event sequence an item's entry denotes: what _dump_stats would
serialize for it, and what its ModelMonitor sees as self.stats. -/
def itemView (refs : List (String × Nat)) (h : Heap) (name : String) :
    Option (List String) :=
  (pyGet name refs).map (heapRead h)

/-- every monitored name resolves to the single shared cell 0. -/
theorem pyGet_shared (names : List String) (n : String) (hn : n ∈ names) :
    pyGet n (names.map (fun m => (m, 0))) = some 0 := by
  induction names with
  | nil => cases hn
  | cons a t ih =>
    rcases List.mem_cons.mp hn with h | h
    · subst h
      simp [pyGet]
    · by_cases ha : a = n
      · subst ha
        simp [pyGet]
      · simpa [pyGet, ha] using ih h

/-- every recorded event, for whichever item, lands in the one shared list. -/
theorem runEvents_shared (names : List String) (ops : List (String × String))
    (acc : List String) (hops : ∀ p ∈ ops, p.1 ∈ names) :
    runEvents (names.map (fun m => (m, 0))) [acc] ops =
      [acc ++ ops.map Prod.snd] := by
  induction ops generalizing acc with
  | nil => simp [runEvents]
  | cons op t ih =>
    have hop : op.1 ∈ names := hops op (by simp)
    have ht : ∀ p ∈ t, p.1 ∈ names := fun p hp => hops p (by simp [hp])
    have hrec : recordEvent (names.map (fun m => (m, 0))) [acc] op.1 op.2 =
        [acc ++ [op.2]] := by
      simp [recordEvent, pyGet_shared names op.1 hop, heapRead, heapWrite]
    calc runEvents (names.map (fun m => (m, 0))) [acc] (op :: t)
        = runEvents (names.map (fun m => (m, 0))) [acc ++ [op.2]] t := by
          simp [runEvents, hrec]
      _ = [acc ++ [op.2] ++ t.map Prod.snd] := ih (acc ++ [op.2]) ht
      _ = [acc ++ (op :: t).map Prod.snd] := by simp

/-- C10: with a stats file configured and no checkpoint file at startup,
line 209 gives every item's name the same single list object; recording an
availability event for any one item therefore appends the timestamp to the
sequence of every item, and after any sequence of recorded events all items'
event sequences are one and the same list — the full timestamp sequence of
all events — which is also what any checkpoint would serialize for each
item. -/
theorem C10_shared_stats (names : List String) (ops : List (String × String))
    (n1 n2 : String) (h1 : n1 ∈ names) (h2 : n2 ∈ names)
    (hops : ∀ p ∈ ops, p.1 ∈ names) :
    itemView (fromkeysShared names).1
        (runEvents (fromkeysShared names).1 (fromkeysShared names).2 ops) n1 =
      some (ops.map Prod.snd) ∧
    itemView (fromkeysShared names).1
        (runEvents (fromkeysShared names).1 (fromkeysShared names).2 ops) n1 =
      itemView (fromkeysShared names).1
        (runEvents (fromkeysShared names).1 (fromkeysShared names).2 ops) n2 := by
  have hrun : runEvents (fromkeysShared names).1 (fromkeysShared names).2 ops =
      [ops.map Prod.snd] := by
    simpa [fromkeysShared] using runEvents_shared names ops [] hops
  have hview : ∀ n, n ∈ names →
      itemView (fromkeysShared names).1 [ops.map Prod.snd] n =
        some (ops.map Prod.snd) := by
    intro n hn
    simp [itemView, fromkeysShared, pyGet_shared names n hn, heapRead]
  rw [hrun]
  exact ⟨hview n1 h1, (hview n1 h1).trans (hview n2 h2).symm⟩

/-- witness for C10: recording one white32 event makes the timestamp appear in
blue64's sequence too, and both views coincide. -/
theorem C10_shared_stats_witness :
    itemView (fromkeysShared ["white32", "blue64"]).1
        (runEvents (fromkeysShared ["white32", "blue64"]).1
          (fromkeysShared ["white32", "blue64"]).2
          [("white32", "2014-11-19 12:00:00")]) "blue64" =
      some ["2014-11-19 12:00:00"] ∧
    itemView (fromkeysShared ["white32", "blue64"]).1
        (runEvents (fromkeysShared ["white32", "blue64"]).1
          (fromkeysShared ["white32", "blue64"]).2
          [("white32", "2014-11-19 12:00:00")]) "blue64" =
      itemView (fromkeysShared ["white32", "blue64"]).1
        (runEvents (fromkeysShared ["white32", "blue64"]).1
          (fromkeysShared ["white32", "blue64"]).2
          [("white32", "2014-11-19 12:00:00")]) "white32" :=
  C10_shared_stats ["white32", "blue64"] [("white32", "2014-11-19 12:00:00")]
    "blue64" "white32" (by simp) (by simp) (by simp)
